import Mathlib

set_option maxRecDepth 8000

/-!
Verification of the SCORM package builder core (Rust sources under
`src/scorm-builder/src-tauri/src/scorm/`) against its specification.

The Rust code is shallowly embedded: strings stay strings (byte offsets of
ASCII patterns coincide with character offsets), `Result<T, String>` becomes
`Except String T`, vectors become lists, and the external `zip` crate is
modelled at its interface (an archive is a list of entries; opening a buffer
either yields the entries or fails).  Every definition is annotated with the
source file and lines it embeds.
-/

/-! ## String helpers (Rust `str::contains`, `str::find`, slicing) -/

/-- Helper for `strContains`: does `pat` occur as a contiguous block? -/
def containsAux (pat : List Char) : List Char → Bool
  | [] => pat.isPrefixOf []
  | c :: rest => pat.isPrefixOf (c :: rest) || containsAux pat rest

/-- Model of Rust `str::contains(pat)`: substring occurrence test. -/
def strContains (s pat : String) : Bool := containsAux pat.data s.data

/-- Helper for `strFind`: index of the first occurrence of `pat`, counting from `i`. -/
def findSubAux (pat : List Char) : List Char → Nat → Option Nat
  | [], i => if pat = [] then some i else none
  | c :: rest, i =>
    if pat.isPrefixOf (c :: rest) then some i else findSubAux pat rest (i + 1)

/-- Model of Rust `str::find(pat)`: byte index of the first occurrence (char
index here; the two agree on ASCII content). -/
def strFind (s pat : String) : Option Nat := findSubAux pat.data s.data 0

/-- Model of Rust slicing `&s[n..]`. -/
def dropS (s : String) (n : Nat) : String := String.mk (s.data.drop n)

/-- Model of Rust `str::starts_with`. -/
def startsWithS (s p : String) : Bool := p.data.isPrefixOf s.data

/-- Model of Rust `str::ends_with`. -/
def endsWithS (s p : String) : Bool := p.data.isSuffixOf s.data

/-- An infix of the right summand is an infix of an append. -/
theorem strInfix_append_left {p b : List Char} (a : List Char) (h : p <:+: b) :
    p <:+: a ++ b := by
  obtain ⟨s, t, rfl⟩ := h
  exact ⟨a ++ s, t, by simp [List.append_assoc]⟩

/-- A list prefix is in particular an infix. -/
theorem infix_of_prefixL {p l : List Char} (h : p <+: l) : p <:+: l := by
  obtain ⟨t, rfl⟩ := h
  exact ⟨[], t, by simp⟩

/-- Cancel a common head block of two lists when proving a prefix relation. -/
theorem prefix_cancel {y z : List Char} (x : List Char) (h : y <+: z) :
    x ++ y <+: x ++ z := by
  obtain ⟨t, rfl⟩ := h
  exact ⟨t, by simp [List.append_assoc]⟩

/-- The substring test decides the infix relation on character data. -/
theorem containsAux_iff (pat : List Char) (l : List Char) :
    containsAux pat l = true ↔ pat <:+: l := by
  induction l with
  | nil =>
    simp only [containsAux, List.isPrefixOf_iff_prefix]
    constructor
    · intro h
      exact infix_of_prefixL h
    · rintro ⟨s, t, h⟩
      rw [List.append_assoc] at h
      rcases List.append_eq_nil.mp h with ⟨h1, h2⟩
      rcases List.append_eq_nil.mp h2 with ⟨h3, h4⟩
      subst h3
      exact ⟨[], rfl⟩
  | cons c rest ih =>
    simp only [containsAux, Bool.or_eq_true, List.isPrefixOf_iff_prefix, ih]
    constructor
    · rintro (hp | hi)
      · exact infix_of_prefixL hp
      · obtain ⟨s, t, h⟩ := hi
        exact ⟨c :: s, t, by simp [h]⟩
    · rintro ⟨s, t, h⟩
      cases s with
      | nil =>
        left
        exact ⟨t, by simpa using h⟩
      | cons x xs =>
        right
        rw [List.cons_append, List.cons_append, List.cons.injEq] at h
        exact ⟨xs, t, h.2⟩

/-- String-level version of `containsAux_iff`. -/
theorem strContains_iff (s pat : String) :
    strContains s pat = true ↔ pat.data <:+: s.data := containsAux_iff pat.data s.data

/-- Substring test is true on any mid-decomposition. -/
theorem strContains_of_decomp {doc a m b : String} (hd : doc = a ++ (m ++ b)) :
    strContains doc m = true := by
  subst hd
  rw [strContains_iff]
  exact ⟨a.data, b.data, by simp [String.data_append, List.append_assoc]⟩

/-- Substring test is monotone under prepending on the left. -/
theorem strContains_append_right (a : String) {b p : String}
    (h : strContains b p = true) : strContains (a ++ b) p = true := by
  rw [strContains_iff] at h ⊢
  rw [String.data_append]
  exact strInfix_append_left a.data h

/-! ## Manifest generator
Embeds `src/scorm-builder/src-tauri/src/scorm/manifest.rs`.  The source emits
XML events through a `quick_xml::Writer`; serialization is the concatenation
of the serialized events in call order, reproduced below one `++` per call.
`quick_xml::escape::escape` escapes the five XML special characters;
`BytesText::new` escapes its content while `BytesText::from_escaped` (used
for the course title, lines 122 and 140) writes its content verbatim. -/

/-- Escape of a single character as performed by `quick_xml::escape::escape`. -/
def xmlEscapeChar (c : Char) : String :=
  if c = '<' then "&lt;"
  else if c = '>' then "&gt;"
  else if c = '&' then "&amp;"
  else if c = '\'' then "&apos;"
  else if c = '"' then "&quot;"
  else String.singleton c

/-- Model of `quick_xml::escape::escape` (manifest.rs lines 37-44). -/
def xmlEscape (s : String) : String := String.join (s.data.map xmlEscapeChar)

/-- Course metadata (manifest.rs lines 6-12). -/
structure CourseMetadata where
  title : String
  identifier : String
  description : Option String
  version : String
deriving DecidableEq

/-- Manifest options (manifest.rs lines 14-18). -/
structure ManifestOptions where
  course : CourseMetadata
  scorm_version : String
deriving DecidableEq

/-- The four accepted SCORM version strings (manifest.rs line 23). -/
def supportedScormVersions : List String := ["1.2", "2004", "2004.3", "2004.4"]

/-- Serialization of one `push_attribute` call of `quick_xml`: the
`From<(&str, &str)>` conversion behind `push_attribute` escapes the
attribute value, so the written value is the escape of what the caller
passed. -/
def attrText (name value : String) : String :=
  " " ++ name ++ "=\"" ++ xmlEscape value ++ "\""

/-- Serialization of a list of attributes in push order. -/
def writeAttrs : List (String × String) → String
  | [] => ""
  | a :: rest => attrText a.1 a.2 ++ writeAttrs rest

/-- Namespace attributes pushed on the manifest root element, by SCORM
version (manifest.rs lines 46-61). -/
def namespaceAttrs (v : String) : List (String × String) :=
  if v = "1.2" then
    [("xmlns", "http://www.imsproject.org/xsd/imscp_rootv1p1p2"),
     ("xmlns:adlcp", "http://www.adlnet.org/xsd/adlcp_rootv1p2")]
  else
    [("xmlns", "http://www.imsglobal.org/xsd/imscp_v1p1"),
     ("xmlns:adlcp", "http://www.adlnet.org/xsd/adlcp_v1p3"),
     ("xmlns:adlseq", "http://www.adlnet.org/xsd/adlseq_v1p3"),
     ("xmlns:adlnav", "http://www.adlnet.org/xsd/adlnav_v1p3"),
     ("xmlns:imsss", "http://www.imsglobal.org/xsd/imsss")]

/-- The `<schemaversion>` text by SCORM version (manifest.rs lines 85-91). -/
def schemaversionText (v : String) : String :=
  if v = "1.2" then "1.2"
  else if v = "2004" then "2004 3rd Edition"
  else if v = "2004.3" then "2004 3rd Edition"
  else if v = "2004.4" then "2004 4th Edition"
  else "2004 3rd Edition"

/-- The serialized manifest root open tag (manifest.rs lines 35-65): the
code passes the identifier and version through `escape` (lines 37-44) and
`push_attribute` escapes once more, so those attribute values are written
double-escaped; then the version-dependent namespace attributes are pushed
(escaping is the identity on their values). -/
def manifestRootTag (options : ManifestOptions) : String :=
  "<manifest" ++ attrText "identifier" (xmlEscape options.course.identifier)
    ++ attrText "version" (xmlEscape options.course.version)
    ++ writeAttrs (namespaceAttrs options.scorm_version) ++ ">"

/-- The serialized manifest content after the root open tag (manifest.rs
lines 67-192), one `++` per written event.  The two `<title>` texts are
written with `BytesText::from_escaped`, i.e. verbatim; the organization
`default`/`identifier` attribute values (lines 104-113) are passed raw and
escaped once by `push_attribute`. -/
def manifestBody (options : ManifestOptions) : String :=
  "<metadata>" ++ "<schema>" ++ "ADL SCORM" ++ "</schema>"
  ++ "<schemaversion>" ++ schemaversionText options.scorm_version ++ "</schemaversion>"
  ++ "</metadata>"
  ++ "<organizations" ++ attrText "default" (options.course.identifier ++ "_org") ++ ">"
  ++ "<organization" ++ attrText "identifier" (options.course.identifier ++ "_org") ++ ">"
  ++ "<title>" ++ options.course.title ++ "</title>"
  ++ "<item" ++ attrText "identifier" "item_1" ++ attrText "identifierref" "resource_1" ++ ">"
  ++ "<title>" ++ options.course.title ++ "</title>"
  ++ "</item>" ++ "</organization>" ++ "</organizations>"
  ++ "<resources>"
  ++ "<resource" ++ attrText "identifier" "resource_1" ++ attrText "type" "webcontent"
    ++ attrText "href" "index.html"
    ++ (if options.scorm_version = "1.2" then attrText "adlcp:scormtype" "sco"
        else attrText "adlcp:scormType" "sco") ++ ">"
  ++ "<file" ++ attrText "href" "index.html" ++ "/>"
  ++ "</resource>" ++ "</resources>" ++ "</manifest>"

/-- Embeds `generate_manifest` (manifest.rs lines 20-195): the version is
validated first (lines 21-25); only then is the document produced. -/
def generate_manifest (options : ManifestOptions) : Except String String :=
  if options.scorm_version ∈ supportedScormVersions then
    .ok ("<?xml version=\"1.0\" encoding=\"UTF-8\"?>"
      ++ manifestRootTag options ++ manifestBody options)
  else
    .error ("Invalid SCORM version: " ++ options.scorm_version)

/-! ## Claim C7: version validation -/

/-- Claim C7: `generate_manifest` returns an error exactly when the requested
SCORM version is not one of "1.2", "2004", "2004.3", "2004.4"; the version is
checked before any XML is built, so on an unsupported version the error value
is the only output and no document is produced. -/
theorem generate_manifest_version_gate (options : ManifestOptions) :
    if options.scorm_version ∈ supportedScormVersions
    then ∃ doc, generate_manifest options = Except.ok doc
    else generate_manifest options
        = Except.error ("Invalid SCORM version: " ++ options.scorm_version) := by
  by_cases h : options.scorm_version ∈ supportedScormVersions <;>
    simp [generate_manifest, h]

/-! ## Claim C8: version-specific namespace sets -/

/-- The SCORM 1.2 namespace pair (manifest.rs lines 48-53). -/
def legacyNamespaceSet : List (String × String) :=
  [("xmlns", "http://www.imsproject.org/xsd/imscp_rootv1p1p2"),
   ("xmlns:adlcp", "http://www.adlnet.org/xsd/adlcp_rootv1p2")]

/-- The SCORM 2004.x namespace set (manifest.rs lines 54-60). -/
def modernNamespaceSet : List (String × String) :=
  [("xmlns", "http://www.imsglobal.org/xsd/imscp_v1p1"),
   ("xmlns:adlcp", "http://www.adlnet.org/xsd/adlcp_v1p3"),
   ("xmlns:adlseq", "http://www.adlnet.org/xsd/adlseq_v1p3"),
   ("xmlns:adlnav", "http://www.adlnet.org/xsd/adlnav_v1p3"),
   ("xmlns:imsss", "http://www.imsglobal.org/xsd/imsss")]

/-- Claim C8: for every supported SCORM version the manifest root element
carries exactly the namespace attributes of that version — "1.2" carries the
two legacy namespaces, the three "2004" variants carry the five modern ones —
and the two sets share no attribute. -/
theorem manifest_namespace_sets (options : ManifestOptions)
    (h : options.scorm_version ∈ supportedScormVersions) :
    ∃ doc, generate_manifest options = Except.ok doc ∧
      (manifestRootTag options).data <:+: doc.data ∧
      ((options.scorm_version = "1.2" ∧
          namespaceAttrs options.scorm_version = legacyNamespaceSet ∧
          ∀ a ∈ legacyNamespaceSet, a ∉ modernNamespaceSet) ∨
        (options.scorm_version ≠ "1.2" ∧
          namespaceAttrs options.scorm_version = modernNamespaceSet ∧
          ∀ a ∈ modernNamespaceSet, a ∉ legacyNamespaceSet)) := by
  have hok : generate_manifest options
      = Except.ok ("<?xml version=\"1.0\" encoding=\"UTF-8\"?>"
        ++ manifestRootTag options ++ manifestBody options) := by
    simp [generate_manifest, h]
  refine ⟨_, hok, ?_, ?_⟩
  · exact ⟨"<?xml version=\"1.0\" encoding=\"UTF-8\"?>".data,
      (manifestBody options).data, by simp [String.data_append]⟩
  · by_cases h12 : options.scorm_version = "1.2"
    · exact Or.inl ⟨h12, by simp [namespaceAttrs, h12, legacyNamespaceSet], by decide⟩
    · exact Or.inr ⟨h12, by simp [namespaceAttrs, h12, modernNamespaceSet], by decide⟩

/-- Concrete SCORM 1.2 request used to witness `manifest_namespace_sets`. -/
def c8Options : ManifestOptions :=
  ⟨⟨"Course", "c1", none, "1.0"⟩, "1.2"⟩

/-- Witness for `manifest_namespace_sets` at a concrete SCORM 1.2 request. -/
theorem manifest_namespace_sets_witness :
    c8Options.scorm_version ∈ supportedScormVersions ∧
      (∃ doc, generate_manifest c8Options = Except.ok doc ∧
        (manifestRootTag c8Options).data <:+: doc.data ∧
        ((c8Options.scorm_version = "1.2" ∧
            namespaceAttrs c8Options.scorm_version = legacyNamespaceSet ∧
            ∀ a ∈ legacyNamespaceSet, a ∉ modernNamespaceSet) ∨
          (c8Options.scorm_version ≠ "1.2" ∧
            namespaceAttrs c8Options.scorm_version = modernNamespaceSet ∧
            ∀ a ∈ modernNamespaceSet, a ∉ legacyNamespaceSet))) :=
  ⟨by decide, manifest_namespace_sets c8Options (by decide)⟩

/-! ## Claim C2: escaping of user-supplied text -/

/-- Suffix of `l` immediately after the first occurrence of `pat`. -/
def splitAfter (pat : List Char) : List Char → Option (List Char)
  | [] => if pat = [] then some [] else none
  | c :: rest =>
    if pat.isPrefixOf (c :: rest) then some ((c :: rest).drop pat.length)
    else splitAfter pat rest

/-- Longest prefix of `l` not containing an occurrence of `pat`. -/
def takeUntil (pat : List Char) : List Char → List Char
  | [] => []
  | c :: rest =>
    if pat.isPrefixOf (c :: rest) then [] else c :: takeUntil pat rest

/-- Text between the first `<title>` and the following `</title>` of a
document. -/
def firstTitleText (doc : String) : Option String :=
  (splitAfter "<title>".data doc.data).map
    fun suf => String.mk (takeUntil "</title>".data suf)

/-- Well-formedness of an XML text run: no raw markup-start character and
every ampersand begins one of the five predefined entity references. -/
def xmlTextOkAux : List Char → Bool
  | [] => true
  | '<' :: _ => false
  | '&' :: rest =>
    ("amp;".data.isPrefixOf rest || "lt;".data.isPrefixOf rest
      || "gt;".data.isPrefixOf rest || "apos;".data.isPrefixOf rest
      || "quot;".data.isPrefixOf rest) && xmlTextOkAux rest
  | _ :: rest => xmlTextOkAux rest

/-- String-level XML text-run well-formedness check. -/
def xmlTextOk (s : String) : Bool := xmlTextOkAux s.data

/-- Concrete request whose course title and identifier contain an XML
special character. -/
def c2Options : ManifestOptions :=
  ⟨⟨"A & B", "A&B", none, "1.0"⟩, "2004"⟩

/-- Claim C2 fails on the code: for the course title "A & B" the manifest
contains the title verbatim (the escaped form is absent even though escaping
would change the text), and the text of the first `<title>` element is not a
well-formed XML text run, so the document is not well-formed XML.  The title
is written with `BytesText::from_escaped` (manifest.rs lines 122 and 140),
which performs no escaping.  The attribute positions behave differently:
for the identifier "A&B" the organization `default` attribute is written
escaped once and the root `identifier` attribute double-escaped. -/
theorem manifest_title_unescaped_cex :
    (generate_manifest c2Options).map
        (fun d => strContains d "<title>A & B</title>") = Except.ok true
    ∧ (generate_manifest c2Options).map
        (fun d => strContains d "<title>A &amp; B</title>") = Except.ok false
    ∧ xmlEscape "A & B" = "A &amp; B"
    ∧ (generate_manifest c2Options).map
        (fun d => (firstTitleText d).map xmlTextOk) = Except.ok (some false)
    ∧ (generate_manifest c2Options).map
        (fun d => strContains d "default=\"A&amp;B_org\"") = Except.ok true
    ∧ (generate_manifest c2Options).map
        (fun d => strContains d "identifier=\"A&amp;amp;B\"") = Except.ok true := by
  exact ⟨rfl, rfl, rfl, rfl, rfl, rfl⟩

/-- Claim C2 (amended): every attribute value is escaped when written — the
manifest root's `identifier`/`version` values are escaped by the code
(manifest.rs lines 37-44) and again by `push_attribute`, so they appear
double-escaped, and the organization `default` attribute carries the
identifier escaped once — but the course title is inserted verbatim
(unescaped) between `<title>` and `</title>`, so the document is well-formed
only for titles free of XML special characters.  `attrText n v` below is the
serialization of `push_attribute((n, v))`, i.e. it contains `xmlEscape v`. -/
theorem manifest_escaping_amended (options : ManifestOptions)
    (h : options.scorm_version ∈ supportedScormVersions) :
    ∃ doc, generate_manifest options = Except.ok doc
      ∧ (attrText "identifier" (xmlEscape options.course.identifier)
          ++ attrText "version" (xmlEscape options.course.version)).data <:+: doc.data
      ∧ ("<title>" ++ options.course.title ++ "</title>").data <:+: doc.data
      ∧ (attrText "default" (options.course.identifier ++ "_org")).data <:+: doc.data := by
  have hok : generate_manifest options
      = Except.ok ("<?xml version=\"1.0\" encoding=\"UTF-8\"?>"
        ++ manifestRootTag options ++ manifestBody options) := by
    simp [generate_manifest, h]
  refine ⟨_, hok, ?_, ?_, ?_⟩
  · simp only [manifestRootTag, String.data_append, List.append_assoc]
    apply strInfix_append_left
    apply strInfix_append_left
    apply infix_of_prefixL
    apply prefix_cancel
    exact ⟨_, rfl⟩
  · simp only [manifestBody, String.data_append, List.append_assoc]
    apply strInfix_append_left
    apply strInfix_append_left
    apply strInfix_append_left
    apply strInfix_append_left
    apply strInfix_append_left
    apply strInfix_append_left
    apply strInfix_append_left
    apply strInfix_append_left
    apply strInfix_append_left
    apply strInfix_append_left
    apply strInfix_append_left
    apply strInfix_append_left
    apply strInfix_append_left
    apply strInfix_append_left
    apply strInfix_append_left
    apply strInfix_append_left
    apply infix_of_prefixL
    apply prefix_cancel
    apply prefix_cancel
    exact ⟨_, rfl⟩
  · simp only [manifestBody, String.data_append, List.append_assoc]
    apply strInfix_append_left
    apply strInfix_append_left
    apply strInfix_append_left
    apply strInfix_append_left
    apply strInfix_append_left
    apply strInfix_append_left
    apply strInfix_append_left
    apply strInfix_append_left
    apply strInfix_append_left
    apply strInfix_append_left
    apply strInfix_append_left
    apply infix_of_prefixL
    exact ⟨_, rfl⟩

/-- Witness for `manifest_escaping_amended` at the concrete request. -/
theorem manifest_escaping_amended_witness :
    c2Options.scorm_version ∈ supportedScormVersions ∧
      (∃ doc, generate_manifest c2Options = Except.ok doc
        ∧ (attrText "identifier" (xmlEscape c2Options.course.identifier)
            ++ attrText "version" (xmlEscape c2Options.course.version)).data <:+: doc.data
        ∧ ("<title>" ++ c2Options.course.title ++ "</title>").data <:+: doc.data
        ∧ (attrText "default" (c2Options.course.identifier ++ "_org")).data <:+: doc.data) :=
  ⟨by decide, manifest_escaping_amended c2Options (by decide)⟩

/-! ## Claim C10: media path normalization
Embeds `ensure_media_path` from
`src/scorm-builder/src-tauri/src/scorm/html_generator_enhanced.rs` lines
13-22. -/

/-- Embeds `HtmlGenerator::ensure_media_path`: external and protocol-relative
URLs and already-prefixed paths pass through, everything else is prefixed
with `media/`. -/
def ensure_media_path (path : String) : String :=
  if startsWithS path "http://" || startsWithS path "https://"
      || startsWithS path "//" then path
  else if startsWithS path "media/" then path
  else "media/" ++ path

/-- Prefixing a string with `media/` changes it. -/
theorem media_prefix_ne (p : String) : "media/" ++ p ≠ p := by
  intro hp
  have := congrArg (fun s => s.data.length) hp
  simp [String.data_append] at this
  omega

/-- Claim C10: `ensure_media_path` returns its input unchanged exactly when
the input starts with "http://", "https://", "//" or "media/"; otherwise it
returns the input prefixed with "media/".  Consequently it is idempotent and
never doubles the `media/` prefix. -/
theorem ensure_media_path_spec (path : String) :
    (ensure_media_path path = path ↔
      (startsWithS path "http://" = true ∨ startsWithS path "https://" = true
        ∨ startsWithS path "//" = true ∨ startsWithS path "media/" = true))
    ∧ ensure_media_path (ensure_media_path path) = ensure_media_path path := by
  by_cases hx : (startsWithS path "http://" || startsWithS path "https://"
      || startsWithS path "//") = true
  · have he : ensure_media_path path = path := by simp [ensure_media_path, hx]
    refine ⟨⟨fun _ => ?_, fun _ => he⟩, by rw [he, he]⟩
    rcases Bool.or_eq_true_iff.mp hx with h | h
    · rcases Bool.or_eq_true_iff.mp h with h' | h'
      · exact Or.inl h'
      · exact Or.inr (Or.inl h')
    · exact Or.inr (Or.inr (Or.inl h))
  · have hx' : (startsWithS path "http://" || startsWithS path "https://"
        || startsWithS path "//") = false := by simpa using hx
    have hx1 : startsWithS path "http://" = false := by
      rcases Bool.or_eq_false_iff.mp hx' with ⟨h, _⟩
      exact (Bool.or_eq_false_iff.mp h).1
    have hx2 : startsWithS path "https://" = false := by
      rcases Bool.or_eq_false_iff.mp hx' with ⟨h, _⟩
      exact (Bool.or_eq_false_iff.mp h).2
    have hx3 : startsWithS path "//" = false := (Bool.or_eq_false_iff.mp hx').2
    by_cases hm : startsWithS path "media/" = true
    · have he : ensure_media_path path = path := by simp [ensure_media_path, hx', hm]
      exact ⟨⟨fun _ => Or.inr (Or.inr (Or.inr hm)), fun _ => he⟩, by rw [he, he]⟩
    · have hm' : startsWithS path "media/" = false := by simpa using hm
      have he : ensure_media_path path = "media/" ++ path := by
        simp [ensure_media_path, hx', hm']
      have q1 : startsWithS ("media/" ++ path) "http://" = false := rfl
      have q2 : startsWithS ("media/" ++ path) "https://" = false := rfl
      have q3 : startsWithS ("media/" ++ path) "//" = false := rfl
      have q4 : startsWithS ("media/" ++ path) "media/" = true := by
        simp [startsWithS, String.data_append]
      refine ⟨⟨fun hcontra => ?_, fun hdisj => ?_⟩, ?_⟩
      · rw [he] at hcontra
        exact absurd hcontra (media_prefix_ne path)
      · rcases hdisj with h | h | h | h
        · rw [hx1] at h; cases h
        · rw [hx2] at h; cases h
        · rw [hx3] at h; cases h
        · rw [hm'] at h; cases h
      · rw [he]
        simp [ensure_media_path, q1, q2, q3, q4]

/-! ## Claim C1: archive path validation in package assembly
Embeds `src/scorm-builder/src-tauri/src/scorm/package.rs`.  The external
`zip` crate's writer is modelled as the list of entries in write order. -/

/-- Entry content in the archive model: text written from a string, binary
bytes, or the streamed content of an on-disk file.  A text entry stands for
the UTF-8 bytes of its string; a binary entry stands for bytes that are not
valid UTF-8 (reading them back as a string fails). -/
inductive EntryData where
  | text (s : String)
  | binary (bytes : List Nat)
  | streamed (sourcePath : String)
deriving DecidableEq

/-- One archive entry: path plus content. -/
structure ZEntry where
  path : String
  data : EntryData
deriving DecidableEq

/-- In-memory resource (package.rs lines 14-18). -/
structure Resource where
  path : String
  content : List Nat
deriving DecidableEq

/-- Disk-backed resource (package.rs lines 20-24). -/
structure StreamableResource where
  zip_path : String
  file_path : String
deriving DecidableEq

/-- Package content (package.rs lines 7-12). -/
structure PackageContent where
  manifest : String
  html_content : String
  resources : List Resource
deriving DecidableEq

/-- Split a character list at `/` separators (model of `Path::components`;
`..` segments are exactly Rust's `Component::ParentDir`). -/
def splitSlash : List Char → List (List Char)
  | [] => [[]]
  | c :: rest =>
    if c = '/' then [] :: splitSlash rest
    else
      match splitSlash rest with
      | [] => [[c]]
      | g :: gs => (c :: g) :: gs

/-- Model of `Path::is_absolute` on Unix: the path starts with `/`. -/
def isAbsolutePath (p : String) : Bool := startsWithS p "/"

/-- Model of `components().any(|c| matches!(c, Component::ParentDir))`. -/
def hasParentDirComponent (p : String) : Bool :=
  (splitSlash p.data).any fun seg => seg == ['.', '.']

/-- The ZipSlip check of `create_scorm_package` (package.rs lines 50-60). -/
def dangerousPath (p : String) : Bool := isAbsolutePath p || hasParentDirComponent p

/-- Resource-writing loop of `create_scorm_package` (package.rs lines
48-74): each path is validated before the entry is written; a dangerous path
aborts with `Invalid resource path` and the entry is never written. -/
def writeResourcesChecked : List Resource → List ZEntry → Except String (List ZEntry)
  | [], acc => .ok acc
  | r :: rest, acc =>
    if dangerousPath r.path then .error ("Invalid resource path: " ++ r.path)
    else writeResourcesChecked rest (acc ++ [⟨r.path, .binary r.content⟩])

/-- Embeds `create_scorm_package` (package.rs lines 27-80). -/
def create_scorm_package (content : PackageContent) : Except String (List ZEntry) :=
  writeResourcesChecked content.resources
    [⟨"imsmanifest.xml", .text content.manifest⟩,
     ⟨"index.html", .text content.html_content⟩]

/-- Modelled from the spec: `stream_file_to_zip` lives in
`src-tauri/src/scorm/generator.rs`, which is not present under `src/` (only
its callers and tests are).  Per spec §4.6 it streams the on-disk file into
the archive entry at the given path in bounded chunks; the chunking is not
observable in the entry model, so the entry records the source file. -/
def stream_file_to_zip (entries : List ZEntry) (file_path zip_path : String) :
    List ZEntry :=
  entries ++ [⟨zip_path, .streamed file_path⟩]

/-- Embeds `create_scorm_package_streaming` (package.rs lines 82-132):
manifest and index are written when nonempty, then the in-memory resources
are written directly — with no path validation (lines 115-121) — and the
disk-backed resources are streamed. -/
def create_scorm_package_streaming (manifest html_content : String)
    (resources : List Resource) (streamable : List StreamableResource) :
    Except String (List ZEntry) :=
  let base :=
    (if manifest = "" then [] else [ZEntry.mk "imsmanifest.xml" (.text manifest)])
    ++ (if html_content = "" then [] else [ZEntry.mk "index.html" (.text html_content)])
    ++ resources.map (fun r => ZEntry.mk r.path (.binary r.content))
  .ok (streamable.foldl (fun acc s => stream_file_to_zip acc s.file_path s.zip_path) base)

/-- Claim C1 fails on the code: `create_scorm_package` rejects a resource
path with a parent-directory component and writes nothing for it, but
`create_scorm_package_streaming` (package.rs lines 115-121) performs no path
validation at all — the same malicious entry is written into the archive and
the call succeeds.  The check is therefore skippable, contrary to the claim
and to the ZipSlip comment at package.rs line 50. -/
theorem streaming_path_check_missing :
    dangerousPath "../evil.txt" = true
    ∧ create_scorm_package ⟨"<m/>", "<h/>", [⟨"../evil.txt", [1, 2, 3]⟩]⟩
        = Except.error "Invalid resource path: ../evil.txt"
    ∧ create_scorm_package_streaming "<m/>" "<h/>" [⟨"../evil.txt", [1, 2, 3]⟩] []
        = Except.ok [⟨"imsmanifest.xml", EntryData.text "<m/>"⟩,
            ⟨"index.html", EntryData.text "<h/>"⟩,
            ⟨"../evil.txt", EntryData.binary [1, 2, 3]⟩] := by
  refine ⟨by decide, rfl, rfl⟩

/-! ## Course data model
Embeds the request structures of
`src/scorm-builder/src-tauri/src/scorm/generator_enhanced.rs` lines 12-124.
`u32` becomes `Nat`.  The four display-setting fields at the end are the
optional fields read by `style_generator.rs` (`font_size`, `show_progress`,
`show_outline`, `printable`). -/

/-- Question (generator_enhanced.rs lines 35-49). -/
structure Question where
  question_type : String
  text : String
  options : Option (List String)
  correct_answer : String
  explanation : Option String
  correct_feedback : Option String
  incorrect_feedback : Option String
deriving DecidableEq

/-- KnowledgeCheck (generator_enhanced.rs lines 29-33). -/
structure KnowledgeCheck where
  enabled : Bool
  questions : List Question
deriving DecidableEq

/-- MediaItem (generator_enhanced.rs lines 51-62). -/
structure MediaItem where
  id : String
  media_type : String
  url : String
  title : String
  embed_url : Option String
  is_youtube : Option Bool
deriving DecidableEq

/-- Topic (generator_enhanced.rs lines 12-27). -/
structure Topic where
  id : String
  title : String
  content : String
  knowledge_check : Option KnowledgeCheck
  audio_file : Option String
  caption_file : Option String
  image_url : Option String
  media : Option (List MediaItem)
deriving DecidableEq

/-- WelcomePage (generator_enhanced.rs lines 93-106). -/
structure WelcomePage where
  title : String
  content : String
  start_button_text : String
  audio_file : Option String
  caption_file : Option String
  image_url : Option String
  media : Option (List MediaItem)
deriving DecidableEq

/-- ObjectivesPage (generator_enhanced.rs lines 108-119). -/
structure ObjectivesPage where
  objectives : List String
  audio_file : Option String
  caption_file : Option String
  image_url : Option String
  media : Option (List MediaItem)
deriving DecidableEq

/-- Assessment (generator_enhanced.rs lines 121-124). -/
structure Assessment where
  questions : List Question
deriving DecidableEq

/-- GenerateScormRequest (generator_enhanced.rs lines 64-75, plus the
display-setting fields read by style_generator.rs lines 25-28). -/
structure GenerateScormRequest where
  course_title : String
  course_description : Option String
  welcome_page : Option WelcomePage
  learning_objectives_page : Option ObjectivesPage
  topics : List Topic
  assessment : Option Assessment
  pass_mark : Nat
  navigation_mode : String
  allow_retake : Bool
  font_size : Option String
  show_progress : Option Bool
  show_outline : Option Bool
  printable : Option Bool
deriving DecidableEq

/-! ## Claim C5: navigation script knowledge-check table
Embeds `src/scorm-builder/src-tauri/src/scorm/navigation_generator.rs`.  The
per-topic boolean is computed in `generate_navigation_js` (lines 31-36); the
handlebars template `templates/navigation.js.hbs` that renders the table is
not under `src/`, so its rendering is modelled from the spec (§4.4) and the
repo test expectations (entries of the shape `'topic-1': true`). -/

/-- Per-topic tagging (navigation_generator.rs lines 31-36): true iff the
knowledge check exists, is enabled and has at least one question. -/
def topicHasKnowledgeCheck (t : Topic) : Bool :=
  (t.knowledge_check.map fun kc => kc.enabled && !kc.questions.isEmpty).getD false

/-- The topic id → has-check table, in topic order (the `topics_data` array
of navigation_generator.rs lines 28-44 restricted to the fields the table
uses). -/
def pagesWithKnowledgeChecks (request : GenerateScormRequest) : List (String × Bool) :=
  request.topics.map fun t => (t.id, topicHasKnowledgeCheck t)

/-- Modelled from the spec: rendering of the table as JS object literal
lines, one `'id': bool,` line per topic (template not under `src/`). -/
def renderKnowledgeCheckTable : List (String × Bool) → String
  | [] => ""
  | (id, b) :: rest =>
    "  \x27" ++ id ++ "\x27: " ++ (if b then "true" else "false") ++ ",\n"
      ++ renderKnowledgeCheckTable rest

/-- Modelled from the spec: the fixed part of the navigation script
(template not under `src/`), carrying the markers §4.4 requires: the
navigation-blocking predicate, the page-transition handler that loads the
page, initializes audio and knowledge checks and only then recomputes the
navigation state, the sidebar click diagnostic and the per-variant answer
checkers. -/
def navigationJsStatic : String :=
  "function initializeNavigation() \x7b updateNavigationState(); \x7d\n"
  ++ "function shouldBlockNavigation() \x7b return false; \x7d\n"
  ++ "function updateNavigationState() \x7b if (shouldBlockNavigation()) \x7b return; \x7d \x7d\n"
  ++ "function navigateToPage(pageId) \x7b\n"
  ++ "  fetch(\x27pages/\x27 + pageId + \x27.html\x27)\n"
  ++ "    .then(html => \x7b\n"
  ++ "      contentContainer.innerHTML = html;\n"
  ++ "      initializePageAudio(pageId);\n"
  ++ "      initializeKnowledgeChecks(pageId);\n"
  ++ "      updateNavigationState();\n"
  ++ "    \x7d);\n"
  ++ "\x7d\n"
  ++ "function checkMultipleChoice(idx) \x7b return true; \x7d\n"
  ++ "function checkFillInBlank(idx) \x7b return true; \x7d\n"
  ++ "console.log(\x27[SCORM Navigation] Sidebar click: \x27 + pageId);\n"
  ++ "window.checkMultipleChoice = checkMultipleChoice;\n"
  ++ "window.checkFillInBlank = checkFillInBlank;\n"
  ++ "window.submitAllKnowledgeChecks = function (topicId) \x7b \x7d;\n"

/-- Embeds `generate_navigation_js` (navigation_generator.rs lines 26-55):
the table data comes from the request, the script around it is the modelled
template. -/
def generate_navigation_js (request : GenerateScormRequest) : String :=
  "const PAGES_WITH_KNOWLEDGE_CHECKS = \x7b\n"
  ++ renderKnowledgeCheckTable (pagesWithKnowledgeChecks request)
  ++ "\x7d;\nconst PASS_MARK = "
  ++ toString request.pass_mark
  ++ ";\n"
  ++ navigationJsStatic

/-- Substring test succeeds on a leading block. -/
theorem strContains_left (m b : String) : strContains (m ++ b) m = true := by
  rw [strContains_iff, String.data_append]
  exact infix_of_prefixL ⟨b.data, rfl⟩

/-- Substring test is monotone under appending on the right. -/
theorem strContains_append_left (b : String) {a p : String}
    (h : strContains a p = true) : strContains (a ++ b) p = true := by
  rw [strContains_iff] at h ⊢
  rw [String.data_append]
  obtain ⟨s, t, hst⟩ := h
  exact ⟨s, t ++ b.data, by rw [← hst]; simp [List.append_assoc]⟩

/-- Every table member's line occurs in the rendered table. -/
theorem renderTable_contains {l : List (String × Bool)} {id : String} {b : Bool}
    (hp : (id, b) ∈ l) :
    strContains (renderKnowledgeCheckTable l)
      ("  \x27" ++ id ++ "\x27: " ++ (if b then "true" else "false") ++ ",\n") = true := by
  induction l with
  | nil => cases hp
  | cons x rest ih =>
    rcases List.mem_cons.mp hp with h | h
    · subst h
      simp only [renderKnowledgeCheckTable]
      exact strContains_left _ _
    · exact strContains_append_right _ (ih h)

/-- Claim C5: the entry of a topic in the navigation script's
topic→has-knowledge-check table is `true` iff the topic has a KnowledgeCheck
with `enabled = true` and at least one question; in every other case (no
check, disabled, or zero questions) it is `false`.  The rendered line of the
topic also appears verbatim in the generated script. -/
theorem topicHasKnowledgeCheck_iff (t : Topic) :
    topicHasKnowledgeCheck t = true ↔
      ∃ kc, t.knowledge_check = some kc ∧ kc.enabled = true ∧ kc.questions ≠ [] := by
  cases hkc : t.knowledge_check with
  | none => simp [topicHasKnowledgeCheck, hkc]
  | some kc =>
    simp [topicHasKnowledgeCheck, hkc, List.isEmpty_iff, Bool.and_eq_true,
      Bool.not_eq_true']

theorem knowledge_check_table_spec (request : GenerateScormRequest) (i : Nat)
    (t : Topic) (ht : request.topics[i]? = some t) :
    ∃ b, (pagesWithKnowledgeChecks request)[i]? = some (t.id, b)
      ∧ (b = true ↔ ∃ kc, t.knowledge_check = some kc
          ∧ kc.enabled = true ∧ kc.questions ≠ [])
      ∧ strContains (generate_navigation_js request)
          ("  \x27" ++ t.id ++ "\x27: " ++ (if b then "true" else "false") ++ ",\n") = true := by
  refine ⟨topicHasKnowledgeCheck t, ?_, topicHasKnowledgeCheck_iff t, ?_⟩
  · simp [pagesWithKnowledgeChecks, List.getElem?_map, ht]
  · have hmem : (t.id, topicHasKnowledgeCheck t) ∈ pagesWithKnowledgeChecks request := by
      have : t ∈ request.topics := List.getElem?_mem ht
      exact List.mem_map.mpr ⟨t, this, rfl⟩
    have hc := renderTable_contains hmem
    unfold generate_navigation_js
    apply strContains_append_left
    apply strContains_append_left
    apply strContains_append_left
    apply strContains_append_left
    exact strContains_append_right _ hc

/-- Topic with an enabled one-question knowledge check, for the witness. -/
def c5Topic : Topic :=
  ⟨"topic-1", "Basics", "<p>Hi</p>",
    some ⟨true, [⟨"fill-in-the-blank", "The sky is ___.", none, "blue", none, none, none⟩]⟩,
    none, none, none, none⟩

/-- Request with the single topic `c5Topic`, for the witness. -/
def c5Request : GenerateScormRequest :=
  ⟨"Intro to Widgets", none, none, none, [c5Topic], none, 80, "linear", true,
    none, none, none, none⟩

/-- Witness for `knowledge_check_table_spec` at the concrete request. -/
theorem knowledge_check_table_spec_witness :
    c5Request.topics[0]? = some c5Topic ∧
      (∃ b, (pagesWithKnowledgeChecks c5Request)[0]? = some (c5Topic.id, b)
        ∧ (b = true ↔ ∃ kc, c5Topic.knowledge_check = some kc
            ∧ kc.enabled = true ∧ kc.questions ≠ [])
        ∧ strContains (generate_navigation_js c5Request)
            ("  \x27" ++ c5Topic.id ++ "\x27: "
              ++ (if b then "true" else "false") ++ ",\n") = true) :=
  ⟨rfl, knowledge_check_table_spec c5Request 0 c5Topic rfl⟩

/-! ## Claim C6: validator ordering check for the navigation script
Embeds the `scripts/navigation.js` rule of
`src/scorm-builder/src-tauri/src/scorm/output_validator.rs` lines 23-81.
Note the searched "then block" is the whole remainder of the content from
`.then(html => `/brace on (line 42 slices to the end of the content). -/

/-- The checks of the navigation rule after the ordering check
(output_validator.rs lines 64-78). -/
def navRuleTail (content : String) : Except String Unit :=
  if !strContains content "[SCORM Navigation] Sidebar click:" then
    .error "Sidebar navigation logging not found"
  else if !strContains content "window.checkFillInBlank" then
    .error "Fill-in-blank check function not found"
  else if !strContains content "window.checkMultipleChoice" then
    .error "Multiple choice check function not found"
  else .ok ()

/-- The `scripts/navigation.js` validation rule (output_validator.rs lines
27-79). -/
def navRule (content : String) : Except String Unit :=
  if !strContains content "shouldBlockNavigation()" then
    .error "Navigation blocking function not found"
  else if !strContains content "updateNavigationState()" then
    .error "Navigation state update not found"
  else
    match strFind content ".then(html => \x7b" with
    | none => .error "navigateToPage then block not found"
    | some thenStart =>
      match strFind (dropS content thenStart) "initializePageAudio(pageId)" with
      | none => .error "initializePageAudio not found in then block"
      | some audioPos =>
        match strFind (dropS (dropS content thenStart) audioPos)
            "updateNavigationState()" with
        | none =>
          .error "updateNavigationState() not found after initializePageAudio in then block"
        | some navPos =>
          if navPos > 500 then
            .error "updateNavigationState() too far from content load"
          else navRuleTail content

/-- Claim C6: with the then-block present and `initializePageAudio(pageId)`
found inside it, the rule fails when no `updateNavigationState()` occurrence
remains at or after the audio-initialization point (i.e. the state recompute
happens only before the content-load completion point), and the ordering
check passes — control reaches the remaining checks — when such an
occurrence exists within the 500-character bound. -/
theorem nav_rule_ordering (content : String) (i a : Nat)
    (h1 : strContains content "shouldBlockNavigation()" = true)
    (h2 : strContains content "updateNavigationState()" = true)
    (h3 : strFind content ".then(html => \x7b" = some i)
    (h4 : strFind (dropS content i) "initializePageAudio(pageId)" = some a) :
    (strFind (dropS (dropS content i) a) "updateNavigationState()" = none →
        navRule content
          = .error "updateNavigationState() not found after initializePageAudio in then block")
    ∧ ∀ n, strFind (dropS (dropS content i) a) "updateNavigationState()" = some n →
        n ≤ 500 → navRule content = navRuleTail content := by
  constructor
  · intro h5
    simp [navRule, h1, h2, h3, h4, h5]
  · intro n h5 h6
    have h7 : ¬ n > 500 := by omega
    simp [navRule, h1, h2, h3, h4, h5, h7]

/-- Concrete navigation script whose state recompute follows the audio
initialization inside the then block, for the witness. -/
def c6GoodJs : String :=
  "shouldBlockNavigation() window.checkFillInBlank window.checkMultipleChoice [SCORM Navigation] Sidebar click: .then(html => \x7b initializePageAudio(pageId); updateNavigationState(); \x7d)"

/-- Witness for `nav_rule_ordering` at a concrete script. -/
theorem nav_rule_ordering_witness :
    strContains c6GoodJs "shouldBlockNavigation()" = true
    ∧ strContains c6GoodJs "updateNavigationState()" = true
    ∧ strFind c6GoodJs ".then(html => \x7b" = some 109
    ∧ strFind (dropS c6GoodJs 109) "initializePageAudio(pageId)" = some 16
    ∧ ((strFind (dropS (dropS c6GoodJs 109) 16) "updateNavigationState()" = none →
          navRule c6GoodJs
            = .error "updateNavigationState() not found after initializePageAudio in then block")
      ∧ ∀ n, strFind (dropS (dropS c6GoodJs 109) 16) "updateNavigationState()" = some n →
          n ≤ 500 → navRule c6GoodJs = navRuleTail c6GoodJs) :=
  ⟨by decide, by decide, by decide, by decide,
    nav_rule_ordering c6GoodJs 109 16 (by decide) (by decide) (by decide) (by decide)⟩

/-! ## Output validator
Embeds the rest of `src/scorm-builder/src-tauri/src/scorm/output_validator.rs`. -/

/-- The `styles/main.css` validation rule (output_validator.rs lines 83-112). -/
def cssRule (content : String) : Except String Unit :=
  if strContains content "min-height: 800px !important" then
    .error "Found problematic min-height that pushes footer off screen"
  else if !(strContains content "body" && strContains content "height: 100vh") then
    .error "Body missing proper height: 100vh"
  else if !strContains content ".footer" then
    .error "Footer styles missing"
  else if !strContains content ".nav-button:disabled" then
    .error "Disabled navigation button styles missing"
  else .ok ()

/-- The `index.html` validation rule (output_validator.rs lines 114-138). -/
def htmlRule (content : String) : Except String Unit :=
  if !strContains content "id=\"prev-button\"" then
    .error "Previous button not found"
  else if !strContains content "id=\"next-button\"" then
    .error "Next button not found"
  else if !strContains content "id=\"content-container\"" then
    .error "Content container not found"
  else if !strContains content "id=\"scorm-alert-container\"" then
    .error "Alert container not found"
  else .ok ()

/-- The validation rule table (output_validator.rs lines 10-21).  The source
keeps the rules in a `HashMap` with unspecified iteration order; the fixed
list order here only fixes the report's entry order, on which no claim
depends. -/
def validationRules : List (String × (String → Except String Unit)) :=
  [("scripts/navigation.js", navRule),
   ("styles/main.css", cssRule),
   ("index.html", htmlRule)]

/-- Validation report (output_validator.rs lines 207-211). -/
structure ValidationReport where
  success : List (String × String)
  errors : List (String × String)
deriving DecidableEq

/-- Embeds `ValidationReport::add_success` (output_validator.rs lines 220-222). -/
def ValidationReport.add_success (r : ValidationReport) (file message : String) :
    ValidationReport :=
  ⟨r.success ++ [(file, message)], r.errors⟩

/-- Embeds `ValidationReport::add_error` (output_validator.rs lines 224-226). -/
def ValidationReport.add_error (r : ValidationReport) (file message : String) :
    ValidationReport :=
  ⟨r.success, r.errors ++ [(file, message)]⟩

/-- Embeds `ValidationReport::has_errors` (output_validator.rs lines 228-230). -/
def ValidationReport.has_errors (r : ValidationReport) : Bool := !r.errors.isEmpty

/-- The per-error lines of `summary` (output_validator.rs lines 239-244). -/
def errLines : List (String × String) → String
  | [] => ""
  | (file, err) :: rest => "  - " ++ file ++ ": " ++ err ++ "\n" ++ errLines rest

/-- Embeds `ValidationReport::summary` (output_validator.rs lines 232-247). -/
def ValidationReport.summary (r : ValidationReport) : String :=
  "Validation Report: " ++ toString r.success.length ++ " success, "
    ++ toString r.errors.length ++ " errors\n"
  ++ (if r.errors.isEmpty then "" else "\nErrors:\n" ++ errLines r.errors)

/-- Lookup by entry name (`archive.by_name`). -/
def byName (entries : List ZEntry) (p : String) : Option ZEntry :=
  entries.find? fun e => e.path == p

/-- Model of `read_to_string` on an entry: text entries decode; binary and
streamed entries stand for bytes that are not valid UTF-8, so decoding them
fails (an entry whose bytes do decode is represented as a text entry). -/
def readAsText : EntryData → Except String String
  | .text s => .ok s
  | .binary _ => .error "stream did not contain valid UTF-8"
  | .streamed _ => .error "stream did not contain valid UTF-8"

/-- The per-path rule loop of `validate_scorm_package` (output_validator.rs
lines 147-168): a missing file or a failing rule becomes a report entry; an
unreadable file aborts the whole call with `Err` (the `?` at line 153). -/
def runRules : List (String × (String → Except String Unit)) → List ZEntry →
    ValidationReport → Except String ValidationReport
  | [], _, rep => .ok rep
  | (p, rule) :: rest, entries, rep =>
    match byName entries p with
    | none => runRules rest entries (rep.add_error p "File not found in package")
    | some e =>
      match readAsText e.data with
      | .error msg => .error ("Failed to read " ++ p ++ ": " ++ msg)
      | .ok content =>
        match rule content with
        | .error err => runRules rest entries (rep.add_error p err)
        | .ok () => runRules rest entries (rep.add_success p "Validation passed")

/-- The topic-page cross-check loop (output_validator.rs lines 170-201):
read failures are swallowed (the `.ok()` at line 177 leaves the buffer
empty). -/
def crossCheckEntries : List ZEntry → ValidationReport → ValidationReport
  | [], rep => rep
  | e :: rest, rep =>
    if startsWithS e.path "pages/topic-" && endsWithS e.path ".html" then
      let content := match readAsText e.data with | .ok s => s | .error _ => ""
      let rep1 :=
        if strContains content "knowledge-check-container" then
          let rep' :=
            if strContains content "fill-blank-"
                && !strContains content "kc-fill-blank" then
              rep.add_error e.path "Fill-in-blank input missing proper class"
            else rep
          if strContains content "fill-blank-"
              && !strContains content "onclick=\"window.submitAllKnowledgeChecks" then
            rep'.add_error e.path "Fill-in-blank submit button missing proper onclick handler"
          else rep'
        else rep
      crossCheckEntries rest rep1
    else crossCheckEntries rest rep

/-- A byte buffer as seen by the external `zip` crate: either a well-formed
archive with its entries, or a buffer `ZipArchive::new` rejects. -/
inductive ZipData where
  | valid (entries : List ZEntry)
  | malformed
deriving DecidableEq

/-- Embeds `validate_scorm_package` (output_validator.rs lines 140-204). -/
def validate_scorm_package (zip_data : ZipData) : Except String ValidationReport :=
  match zip_data with
  | .malformed => .error "Failed to open ZIP archive: invalid Zip archive"
  | .valid entries =>
    match runRules validationRules entries ⟨[], []⟩ with
    | .error e => .error e
    | .ok rep => .ok (crossCheckEntries entries rep)

/-! ## Claim C4: validate returns a report; failures are report entries -/

/-- The report error entries the rule loop produces, rule by rule (missing
file or failing rule; unreadable entries excluded by hypothesis). -/
def ruleErrors (entries : List ZEntry) :
    List (String × (String → Except String Unit)) → List (String × String)
  | [] => []
  | (p, rule) :: rest =>
    (match byName entries p with
     | none => [(p, "File not found in package")]
     | some e =>
       match readAsText e.data with
       | .error _ => []
       | .ok content =>
         match rule content with
         | .error err => [(p, err)]
         | .ok () => []) ++ ruleErrors entries rest

/-- The report error entries the cross-check loop produces. -/
def crossErrors : List ZEntry → List (String × String)
  | [] => []
  | e :: rest =>
    (if startsWithS e.path "pages/topic-" && endsWithS e.path ".html" then
      let content := match readAsText e.data with | .ok s => s | .error _ => ""
      if strContains content "knowledge-check-container" then
        (if strContains content "fill-blank-"
            && !strContains content "kc-fill-blank" then
          [(e.path, "Fill-in-blank input missing proper class")]
        else [])
        ++ (if strContains content "fill-blank-"
            && !strContains content "onclick=\"window.submitAllKnowledgeChecks" then
          [(e.path, "Fill-in-blank submit button missing proper onclick handler")]
        else [])
      else []
    else []) ++ crossErrors rest

/-- When every present rule file is readable, the rule loop never aborts and
appends exactly `ruleErrors` to the error list. -/
theorem runRules_ok (rules : List (String × (String → Except String Unit)))
    (entries : List ZEntry) (rep : ValidationReport)
    (hr : ∀ pr ∈ rules, ∀ e, byName entries pr.1 = some e →
        (readAsText e.data).isOk = true) :
    ∃ s, runRules rules entries rep
        = .ok ⟨s, rep.errors ++ ruleErrors entries rules⟩ := by
  induction rules generalizing rep with
  | nil => exact ⟨rep.success, by simp [runRules, ruleErrors]⟩
  | cons pr rest ih =>
    obtain ⟨p, rule⟩ := pr
    have hrest : ∀ pr ∈ rest, ∀ e, byName entries pr.1 = some e →
        (readAsText e.data).isOk = true :=
      fun pr hpr => hr pr (List.mem_cons_of_mem _ hpr)
    cases hb : byName entries p with
    | none =>
      obtain ⟨s, hs⟩ := ih (rep.add_error p "File not found in package") hrest
      simp only [ValidationReport.add_error] at hs
      exact ⟨s, by simp [runRules, hb, hs, ruleErrors, ValidationReport.add_error,
        List.append_assoc]⟩
    | some e =>
      have hok : (readAsText e.data).isOk = true := hr (p, rule) (List.mem_cons_self _ _) e hb
      cases hread : readAsText e.data with
      | error msg => rw [hread] at hok; cases hok
      | ok content =>
        cases hrule : rule content with
        | error err =>
          obtain ⟨s, hs⟩ := ih (rep.add_error p err) hrest
          simp only [ValidationReport.add_error] at hs
          exact ⟨s, by simp [runRules, hb, hread, hrule, hs, ruleErrors,
            ValidationReport.add_error, List.append_assoc]⟩
        | ok u =>
          cases u
          obtain ⟨s, hs⟩ := ih (rep.add_success p "Validation passed") hrest
          simp only [ValidationReport.add_success] at hs
          exact ⟨s, by simp [runRules, hb, hread, hrule, hs, ruleErrors,
            ValidationReport.add_success, List.append_assoc]⟩

/-- The cross-check loop appends exactly `crossErrors` to the error list and
leaves the successes unchanged. -/
theorem crossCheckEntries_spec (entries : List ZEntry) (rep : ValidationReport) :
    crossCheckEntries entries rep = ⟨rep.success, rep.errors ++ crossErrors entries⟩ := by
  induction entries generalizing rep with
  | nil => simp [crossCheckEntries, crossErrors]
  | cons e rest ih =>
    by_cases hp : (startsWithS e.path "pages/topic-" && endsWithS e.path ".html") = true
    · simp only [crossCheckEntries, crossErrors, hp, if_true]
      by_cases hk : strContains
          (match readAsText e.data with | .ok s => s | .error _ => "") 
          "knowledge-check-container" = true
      · by_cases h1 : (strContains (match readAsText e.data with | .ok s => s | .error _ => "")
              "fill-blank-"
            && !strContains (match readAsText e.data with | .ok s => s | .error _ => "")
              "kc-fill-blank") = true
        · by_cases h2 : (strContains (match readAsText e.data with | .ok s => s | .error _ => "")
                "fill-blank-"
              && !strContains (match readAsText e.data with | .ok s => s | .error _ => "")
                "onclick=\"window.submitAllKnowledgeChecks") = true
          · simp [hk, h1, h2, ih, ValidationReport.add_error]
          · simp [hk, h1, h2, ih, ValidationReport.add_error]
        · by_cases h2 : (strContains (match readAsText e.data with | .ok s => s | .error _ => "")
                "fill-blank-"
              && !strContains (match readAsText e.data with | .ok s => s | .error _ => "")
                "onclick=\"window.submitAllKnowledgeChecks") = true
          · simp [hk, h1, h2, ih, ValidationReport.add_error]
          · simp [hk, h1, h2, ih, ValidationReport.add_error]
      · simp [hk, ih]
    · simp only [crossCheckEntries, crossErrors, hp]
      simp [hp, ih]

/-- Claim C4 fails on the code as stated: a buffer that is not a readable
ZIP archive makes `validate_scorm_package` return `Err` instead of a report
(`ZipArchive::new(...).map_err(...)?`, output_validator.rs lines 141-143),
and so does a present rule file whose bytes are not valid UTF-8 (the `?` at
line 153).  In Rust, e.g. the empty byte buffer is rejected by
`ZipArchive::new`. -/
theorem validate_throws_cex :
    validate_scorm_package ZipData.malformed
        = Except.error "Failed to open ZIP archive: invalid Zip archive"
    ∧ validate_scorm_package (ZipData.valid
          [⟨"scripts/navigation.js", EntryData.binary [255]⟩])
        = Except.error
            "Failed to read scripts/navigation.js: stream did not contain valid UTF-8" :=
  ⟨rfl, rfl⟩

/-- Claim C4 (amended): on every byte buffer that opens as a ZIP archive and
whose present rule files decode as text, `validate_scorm_package` returns a
`ValidationReport`; its error list is exactly the rule failures (missing or
failing rule files) followed by the topic-page cross-check failures, and
`has_errors()` is true iff that list is non-empty.  Buffers that fail to
open, or rule files that fail to decode, abort with `Err` instead. -/
theorem validate_report_amended (entries : List ZEntry)
    (hr : ∀ pr ∈ validationRules, ∀ e, byName entries pr.1 = some e →
        (readAsText e.data).isOk = true) :
    ∃ r, validate_scorm_package (.valid entries) = .ok r
      ∧ r.errors = ruleErrors entries validationRules ++ crossErrors entries
      ∧ (r.has_errors = true ↔ r.errors ≠ []) := by
  obtain ⟨s, hs⟩ := runRules_ok validationRules entries ⟨[], []⟩ hr
  refine ⟨⟨s, ruleErrors entries validationRules ++ crossErrors entries⟩, ?_, rfl, ?_⟩
  · simp [validate_scorm_package, hs, crossCheckEntries_spec]
  · simp [ValidationReport.has_errors, List.isEmpty_iff]

/-- Witness for `validate_report_amended` at the empty archive (all three
rule files missing, three error entries, `has_errors` true). -/
theorem validate_report_amended_witness :
    (∀ pr ∈ validationRules, ∀ e, byName ([] : List ZEntry) pr.1 = some e →
        (readAsText e.data).isOk = true)
    ∧ (∃ r, validate_scorm_package (.valid []) = .ok r
        ∧ r.errors = ruleErrors [] validationRules ++ crossErrors []
        ∧ (r.has_errors = true ↔ r.errors ≠ [])) :=
  ⟨fun _ _ e he => by simp [byName] at he,
    validate_report_amended [] (fun _ _ e he => by simp [byName] at he)⟩

/-! ## Style generator
Embeds `src/scorm-builder/src-tauri/src/scorm/style_generator.rs`.  The
handlebars template `templates/main.css.hbs` is not under `src/`; the
rendered stylesheet is modelled from the spec (§4.3, §4.7): it carries the
computed base font size and sidebar width and the rule markers the
validators require.  `show_progress` and `printable` are passed to the
template but have no observable marker in the modelled output. -/

/-- The base font size map (style_generator.rs lines 38-42). -/
def baseFontSize (fs : String) : String :=
  if fs = "small" then "14px" else if fs = "large" then "18px" else "16px"

/-- Modelled from the spec: the stylesheet shape with the two computed
holes. -/
def cssTemplate (bfs sbw : String) : String :=
  "body \x7b margin: 0; height: 100vh; font-size: " ++ bfs
  ++ "; \x7d\n.main-area \x7b display: flex; \x7d\n.sidebar \x7b width: "
  ++ sbw
  ++ "; \x7d\n.footer \x7b padding: 8px; \x7d\n.nav-button \x7b cursor: pointer; \x7d\n.nav-button:disabled \x7b opacity: 0.5; \x7d\n.knowledge-check-container \x7b margin: 16px; \x7d\n.kc-fill-blank \x7b border: 1px solid; \x7d\n"

/-- Embeds `generate_main_css` (style_generator.rs lines 23-48): the
settings are read with their defaults and determine the font size and
sidebar width. -/
def generate_main_css (request : GenerateScormRequest) : String :=
  cssTemplate (baseFontSize (request.font_size.getD "medium"))
    (if request.show_outline.getD true then "200px" else "0px")

/-- Embeds `validate_css` (style_generator.rs lines 50-101), the error list
built by the source's sequence of checks. -/
def validate_css (css_content : String) : List String :=
  (if strContains css_content "min-height: 800px !important" then
    ["Found problematic min-height: 800px !important that pushes footer off screen"]
  else [])
  ++ (if !(strContains css_content "body" && strContains css_content "height: 100vh") then
    ["Body should have height: 100vh for proper layout"]
  else [])
  ++ (if !(strContains css_content ".main-area" && strContains css_content "display: flex") then
    ["Main area should use flexbox layout"]
  else [])
  ++ (if !strContains css_content ".footer" then ["Footer styles are missing"] else [])
  ++ (if !strContains css_content ".nav-button" then
    ["Navigation button styles are missing"]
  else [])
  ++ (if !strContains css_content ":disabled" then ["Disabled state styles are missing"] else [])
  ++ (if !strContains css_content ".knowledge-check-container" then
    ["Knowledge check container styles are missing"]
  else [])
  ++ (if !strContains css_content ".kc-fill-blank" then
    ["Fill-in-blank input styles are missing"]
  else [])

/-- The generated stylesheet always passes `validate_css`: the holes only
ever take one of the computed values. -/
theorem validate_css_generated (request : GenerateScormRequest) :
    validate_css (generate_main_css request) = [] := by
  unfold generate_main_css
  have hb : baseFontSize (request.font_size.getD "medium") = "14px"
      ∨ baseFontSize (request.font_size.getD "medium") = "18px"
      ∨ baseFontSize (request.font_size.getD "medium") = "16px" := by
    unfold baseFontSize
    by_cases h1 : request.font_size.getD "medium" = "small"
    · simp [h1]
    · by_cases h2 : request.font_size.getD "medium" = "large" <;> simp [h1, h2]
  have hs : (if request.show_outline.getD true then "200px" else "0px") = "200px"
      ∨ (if request.show_outline.getD true then "200px" else "0px") = "0px" := by
    by_cases h : request.show_outline.getD true <;> simp [h]
  rcases hb with hb | hb | hb <;> rcases hs with hs | hs <;> rw [hb, hs] <;> decide

/-! ## Navigation script validation (generator side)
Embeds `validate_navigation_js` (navigation_generator.rs lines 57-101), the
loop over required function names unrolled. -/

/-- Embeds `validate_navigation_js`: the collected error list. -/
def validate_navigation_js (js : String) : List String :=
  (if !(strContains js "function updateNavigationState"
      || strContains js "window.updateNavigationState =") then
    ["Missing required function: updateNavigationState"]
  else [])
  ++ (if !(strContains js "function shouldBlockNavigation"
      || strContains js "window.shouldBlockNavigation =") then
    ["Missing required function: shouldBlockNavigation"]
  else [])
  ++ (if !(strContains js "function navigateToPage"
      || strContains js "window.navigateToPage =") then
    ["Missing required function: navigateToPage"]
  else [])
  ++ (if !(strContains js "function checkMultipleChoice"
      || strContains js "window.checkMultipleChoice =") then
    ["Missing required function: checkMultipleChoice"]
  else [])
  ++ (if !(strContains js "function checkFillInBlank"
      || strContains js "window.checkFillInBlank =") then
    ["Missing required function: checkFillInBlank"]
  else [])
  ++ (if !(strContains js "function initializeNavigation"
      || strContains js "window.initializeNavigation =") then
    ["Missing required function: initializeNavigation"]
  else [])
  ++ (if !strContains js "shouldBlockNavigation()" then
    ["Navigation blocking check not found in navigation flow"]
  else [])
  ++ (if !(strContains js "initializePageAudio(pageId);"
      && strContains js "updateNavigationState();") then
    ["Navigation state update not properly placed after content load"]
  else [])
  ++ (if !strContains js "[SCORM Navigation] Sidebar click:" then
    ["Sidebar navigation logging not found"]
  else [])

/-- The generated navigation script always passes `validate_navigation_js`:
every marker lives in the fixed template part. -/
theorem validate_navigation_js_generated (request : GenerateScormRequest) :
    validate_navigation_js (generate_navigation_js request) = [] := by
  have m1 : strContains (generate_navigation_js request)
      "function updateNavigationState" = true := by
    unfold generate_navigation_js
    exact strContains_append_right _ (by decide)
  have m2 : strContains (generate_navigation_js request)
      "function shouldBlockNavigation" = true := by
    unfold generate_navigation_js
    exact strContains_append_right _ (by decide)
  have m3 : strContains (generate_navigation_js request)
      "function navigateToPage" = true := by
    unfold generate_navigation_js
    exact strContains_append_right _ (by decide)
  have m4 : strContains (generate_navigation_js request)
      "function checkMultipleChoice" = true := by
    unfold generate_navigation_js
    exact strContains_append_right _ (by decide)
  have m5 : strContains (generate_navigation_js request)
      "function checkFillInBlank" = true := by
    unfold generate_navigation_js
    exact strContains_append_right _ (by decide)
  have m6 : strContains (generate_navigation_js request)
      "function initializeNavigation" = true := by
    unfold generate_navigation_js
    exact strContains_append_right _ (by decide)
  have m7 : strContains (generate_navigation_js request)
      "shouldBlockNavigation()" = true := by
    unfold generate_navigation_js
    exact strContains_append_right _ (by decide)
  have m8 : strContains (generate_navigation_js request)
      "initializePageAudio(pageId);" = true := by
    unfold generate_navigation_js
    exact strContains_append_right _ (by decide)
  have m9 : strContains (generate_navigation_js request)
      "updateNavigationState();" = true := by
    unfold generate_navigation_js
    exact strContains_append_right _ (by decide)
  have m10 : strContains (generate_navigation_js request)
      "[SCORM Navigation] Sidebar click:" = true := by
    unfold generate_navigation_js
    exact strContains_append_right _ (by decide)
  simp [validate_navigation_js, m1, m2, m3, m4, m5, m6, m7, m8, m9, m10]

/-! ## HTML page generators
Embeds `src/scorm-builder/src-tauri/src/scorm/html_generator_enhanced.rs`.
The handlebars templates (`templates/*.html.hbs`) are not under `src/`; the
rendered pages are modelled from the spec (§4.5, §4.7): the index shell
carries the navigation buttons and containers the validator requires, topic
pages carry the topic content and, when knowledge-check questions survive
the enabled-filter of `generate_topic_page` (lines 182-240), a
knowledge-check container whose fill-in-the-blank inputs use the
`kc-fill-blank` class and whose submit button calls the unified
`submitAllKnowledgeChecks` handler. -/

/-- Sidebar links of the index shell, one per topic. -/
def indexSidebar : List Topic → String
  | [] => ""
  | t :: rest =>
    "<a class=\"sidebar-link\" data-page=\"" ++ t.id ++ "\">" ++ t.title ++ "</a>\n"
      ++ indexSidebar rest

/-- Embeds `generate_index_html` (html_generator_enhanced.rs lines 64-77);
page shape modelled from the spec. -/
def generate_index_html (request : GenerateScormRequest) : String :=
  "<!DOCTYPE html>\n<html>\n<head><title>"
  ++ request.course_title
  ++ "</title></head>\n<body>\n<div id=\"content-container\"></div>\n<div id=\"scorm-alert-container\"></div>\n<button id=\"prev-button\">Previous</button>\n<button id=\"next-button\">Next</button>\n<nav class=\"sidebar\">\n"
  ++ indexSidebar request.topics
  ++ "</nav>\n</body>\n</html>\n"

/-- The questions `generate_topic_page` renders: the knowledge check's
questions when it exists and is enabled, `[]` otherwise
(html_generator_enhanced.rs lines 182-240). -/
def kcQuestions (t : Topic) : List Question :=
  match t.knowledge_check with
  | some kc => if kc.enabled then kc.questions else []
  | none => []

/-- Modelled rendering of one knowledge-check question. -/
def kcQuestionHtml (index : Nat) (q : Question) : String :=
  "<div class=\"kc-question-wrapper\" data-index=\"" ++ toString index ++ "\">"
  ++ q.text
  ++ (if q.question_type = "fill-in-the-blank" then
      "<input id=\"fill-blank-" ++ toString index ++ "\" class=\"kc-fill-blank\" />"
    else "<div class=\"kc-options\"></div>")
  ++ "</div>"

/-- Modelled rendering of a question list with stable indices. -/
def kcQuestionsHtml (index : Nat) : List Question → String
  | [] => ""
  | q :: rest => kcQuestionHtml index q ++ kcQuestionsHtml (index + 1) rest

/-- Modelled knowledge-check block: absent when no question survives the
enabled-filter, otherwise the container, the questions and the unified
submit button. -/
def kcBlock (topicId : String) (questions : List Question) : String :=
  if questions.isEmpty then ""
  else
    "<div class=\"knowledge-check-container\">"
    ++ kcQuestionsHtml 0 questions
    ++ "<button onclick=\"window.submitAllKnowledgeChecks(\x27" ++ topicId
    ++ "\x27)\">Submit</button></div>"

/-- Embeds `generate_topic_page` (html_generator_enhanced.rs lines 174-314);
page shape modelled from the spec, with the topic content inserted
verbatim. -/
def generate_topic_page (t : Topic) : String :=
  "<div class=\"topic-page\" id=\"" ++ t.id ++ "\"><h1>" ++ t.title
  ++ "</h1><div class=\"topic-content\">" ++ t.content ++ "</div>"
  ++ kcBlock t.id (kcQuestions t)
  ++ "</div>\n"

/-- Embeds `generate_welcome_page` (html_generator_enhanced.rs lines
79-127); page shape modelled from the spec. -/
def generate_welcome_page (w : WelcomePage) : String :=
  "<div class=\"welcome-page\"><h1>" ++ w.title ++ "</h1><div>" ++ w.content
  ++ "</div><button>" ++ w.start_button_text ++ "</button></div>\n"

/-- List items of the objectives page. -/
def objectivesList : List String → String
  | [] => ""
  | x :: rest => "<li>" ++ x ++ "</li>" ++ objectivesList rest

/-- Embeds `generate_objectives_page` (html_generator_enhanced.rs lines
129-172); page shape modelled from the spec. -/
def generate_objectives_page (o : ObjectivesPage) : String :=
  "<div class=\"objectives-page\"><ul>" ++ objectivesList o.objectives ++ "</ul></div>\n"

/-- Embeds `generate_assessment_page` (html_generator_enhanced.rs lines
316-337); page shape modelled from the spec. -/
def generate_assessment_page (a : Assessment) : String :=
  "<div class=\"assessment-page\" data-questions=\"" ++ toString a.questions.length
  ++ "\"></div>\n"

/-! ## Simple manifest
Embeds `generate_simple_manifest` (generator_enhanced.rs lines 249-307).
The source calls `uuid::Uuid::new_v4()` for the package identifier; that
fresh value is the only nondeterministic input of the pipeline and is made
an explicit `uuid` parameter. -/

/-- The per-topic `<file>` lines (generator_enhanced.rs lines 266-271). -/
def topicFileLines : List Topic → String
  | [] => ""
  | t :: rest =>
    "            <file href=\"pages/" ++ t.id ++ ".html\"/>\n" ++ topicFileLines rest

/-- The `<resources>` block (generator_enhanced.rs lines 250-276). -/
def simpleManifestResources (request : GenerateScormRequest) : String :=
  "        <resource identifier=\"main\" type=\"webcontent\" adlcp:scormType=\"sco\" href=\"index.html\">\n            <file href=\"index.html\"/>\n            <file href=\"styles/main.css\"/>\n            <file href=\"scripts/navigation.js\"/>\n"
  ++ (if request.welcome_page.isSome then
      "            <file href=\"pages/welcome.html\"/>\n"
    else "")
  ++ (if request.learning_objectives_page.isSome then
      "            <file href=\"pages/objectives.html\"/>\n"
    else "")
  ++ topicFileLines request.topics
  ++ (if request.assessment.isSome then
      "            <file href=\"pages/assessment.html\"/>\n"
    else "")
  ++ "        </resource>"

/-- The fixed text before the fresh identifier (generator_enhanced.rs lines
279-280). -/
def simpleManifestHead : String :=
  "<?xml version=\"1.0\" encoding=\"UTF-8\"?>\n<manifest identifier=\"course-"

/-- The text after the fresh identifier (generator_enhanced.rs lines
280-306), a function of the request only. -/
def simpleManifestMid (request : GenerateScormRequest) : String :=
  "\" version=\"1.0\"\n          xmlns=\"http://www.imsproject.org/xsd/imscp_rootv1p1p2\"\n          xmlns:adlcp=\"http://www.adlnet.org/xsd/adlcp_rootv1p2\"\n          xmlns:xsi=\"http://www.w3.org/2001/XMLSchema-instance\"\n          xsi:schemaLocation=\"http://www.imsproject.org/xsd/imscp_rootv1p1p2 imscp_rootv1p1p2.xsd\n                              http://www.adlnet.org/xsd/adlcp_rootv1p2 adlcp_rootv1p2.xsd\">\n    <metadata>\n        <schema>ADL SCORM</schema>\n        <schemaversion>1.2</schemaversion>\n    </metadata>\n    <organizations default=\"default_org\">\n        <organization identifier=\"default_org\">\n            <title>"
  ++ request.course_title
  ++ "</title>\n            <item identifier=\"item_1\" identifierref=\"main\">\n                <title>"
  ++ request.course_title
  ++ "</title>\n            </item>\n        </organization>\n    </organizations>\n    <resources>\n"
  ++ simpleManifestResources request
  ++ "\n    </resources>\n</manifest>"

/-- Embeds `generate_simple_manifest`: the fresh identifier lands between
the fixed head and the request-determined remainder. -/
def generate_simple_manifest (request : GenerateScormRequest) (uuid : String) : String :=
  simpleManifestHead ++ uuid ++ simpleManifestMid request

/-! ## Full pipeline
Embeds `EnhancedScormGenerator::generate_scorm_package` (generator_enhanced.rs
lines 143-247).  The `media_files: HashMap<String, Vec<u8>>` becomes a list
of path-bytes pairs in iteration order; the archive is the entry list in
write order. -/

/-- The archive entries the pipeline writes, in the write order of
generator_enhanced.rs lines 154-231: navigation script, stylesheet, index,
optional welcome/objectives pages, topic pages, optional assessment page,
manifest, then media. -/
def packageEntries (request : GenerateScormRequest)
    (media_files : List (String × List Nat)) (uuid : String) : List ZEntry :=
  [⟨"scripts/navigation.js", .text (generate_navigation_js request)⟩,
   ⟨"styles/main.css", .text (generate_main_css request)⟩,
   ⟨"index.html", .text (generate_index_html request)⟩]
  ++ (match request.welcome_page with
      | some w => [ZEntry.mk "pages/welcome.html" (.text (generate_welcome_page w))]
      | none => [])
  ++ (match request.learning_objectives_page with
      | some o => [ZEntry.mk "pages/objectives.html" (.text (generate_objectives_page o))]
      | none => [])
  ++ request.topics.map
      (fun t => ZEntry.mk ("pages/" ++ t.id ++ ".html") (.text (generate_topic_page t)))
  ++ (match request.assessment with
      | some a => [ZEntry.mk "pages/assessment.html" (.text (generate_assessment_page a))]
      | none => [])
  ++ [⟨"imsmanifest.xml", .text (generate_simple_manifest request uuid)⟩]
  ++ media_files.map (fun m => ZEntry.mk m.1 (.binary m.2))

/-- Embeds `generate_scorm_package` (generator_enhanced.rs lines 143-247):
the navigation script and stylesheet are validated as they are produced
(lines 155-174, failures join with newlines), the archive is assembled, and
the post-build report gates the result (lines 237-246): on `has_errors` the
buffer is discarded and a single error combining the fixed prefix with
`summary()` is returned. -/
def generate_scorm_package (request : GenerateScormRequest)
    (media_files : List (String × List Nat)) (uuid : String) :
    Except String (List ZEntry) :=
  match validate_navigation_js (generate_navigation_js request) with
  | e :: es => .error (String.intercalate "\n" (e :: es))
  | [] =>
    match validate_css (generate_main_css request) with
    | e :: es => .error (String.intercalate "\n" (e :: es))
    | [] =>
      match validate_scorm_package (.valid (packageEntries request media_files uuid)) with
      | .error e => .error e
      | .ok report =>
        if report.has_errors then
          .error ("SCORM package validation failed:\n" ++ report.summary)
        else .ok (packageEntries request media_files uuid)

/-! ## Claim C3: failing reports reject the package with full diagnostics -/

/-- Every error entry's line occurs in the rendered error-line block. -/
theorem errLines_contains {l : List (String × String)} {fe : String × String}
    (h : fe ∈ l) :
    strContains (errLines l) ("  - " ++ fe.1 ++ ": " ++ fe.2 ++ "\n") = true := by
  obtain ⟨f, er⟩ := fe
  induction l with
  | nil => cases h
  | cons x rest ih =>
    rcases List.mem_cons.mp h with hx | hx
    · subst hx
      simp only [errLines]
      exact strContains_left _ _
    · exact strContains_append_right _ (ih hx)

/-- Claim C3: whenever the post-build validation report has at least one
error, `generate_scorm_package` returns an error whose message is the fixed
prefix plus `summary()`, the assembled entries are not returned, and the
message contains the full per-file diagnostic line of every report error. -/
theorem package_failing_validation_rejected (request : GenerateScormRequest)
    (media_files : List (String × List Nat)) (uuid : String)
    (report : ValidationReport)
    (hv : validate_scorm_package (.valid (packageEntries request media_files uuid))
        = .ok report)
    (he : report.has_errors = true) :
    generate_scorm_package request media_files uuid
        = .error ("SCORM package validation failed:\n" ++ report.summary)
      ∧ ∀ fe ∈ report.errors,
          strContains ("SCORM package validation failed:\n" ++ report.summary)
            ("  - " ++ fe.1 ++ ": " ++ fe.2 ++ "\n") = true := by
  constructor
  · simp [generate_scorm_package, validate_navigation_js_generated,
      validate_css_generated, hv, he]
  · intro fe hfe
    have h1 : strContains (errLines report.errors)
        ("  - " ++ fe.1 ++ ": " ++ fe.2 ++ "\n") = true := errLines_contains hfe
    have hne : report.errors.isEmpty = false := by
      simp only [ValidationReport.has_errors, Bool.not_eq_true', List.isEmpty_iff] at he ⊢
      simp [List.isEmpty_iff, he]
    apply strContains_append_right
    unfold ValidationReport.summary
    rw [hne]
    simp only [Bool.false_eq_true, if_false]
    apply strContains_append_right
    apply strContains_append_right
    exact h1

/-! ## Claim C9: determinism of the text artifacts modulo the identifier -/

/-- Claim C9: the pipeline's only nondeterministic input is the fresh
package identifier (`Uuid::new_v4`, modelled as the `uuid` parameter).  The
archive entry list decomposes as a fixed part, the manifest entry, and a
fixed tail — all independent of `uuid` — with the identifier landing between
the manifest's fixed head and its request-determined remainder.  Two runs on
the same request and media therefore produce byte-identical navigation
script, stylesheet, index and page artifacts, and their manifests differ
only in the identifier field. -/
theorem pipeline_deterministic_modulo_uuid (request : GenerateScormRequest)
    (media_files : List (String × List Nat)) :
    ∃ pre post, ∀ uuid : String,
      generate_simple_manifest request uuid
          = simpleManifestHead ++ uuid ++ simpleManifestMid request
      ∧ packageEntries request media_files uuid
          = pre ++ ZEntry.mk "imsmanifest.xml"
              (.text (simpleManifestHead ++ uuid ++ simpleManifestMid request)) :: post := by
  refine ⟨[⟨"scripts/navigation.js", .text (generate_navigation_js request)⟩,
      ⟨"styles/main.css", .text (generate_main_css request)⟩,
      ⟨"index.html", .text (generate_index_html request)⟩]
    ++ (match request.welcome_page with
        | some w => [ZEntry.mk "pages/welcome.html" (.text (generate_welcome_page w))]
        | none => [])
    ++ (match request.learning_objectives_page with
        | some o => [ZEntry.mk "pages/objectives.html" (.text (generate_objectives_page o))]
        | none => [])
    ++ request.topics.map
        (fun t => ZEntry.mk ("pages/" ++ t.id ++ ".html") (.text (generate_topic_page t)))
    ++ (match request.assessment with
        | some a => [ZEntry.mk "pages/assessment.html" (.text (generate_assessment_page a))]
        | none => []),
    media_files.map (fun m => ZEntry.mk m.1 (.binary m.2)), fun uuid => ⟨rfl, ?_⟩⟩
  simp [packageEntries, generate_simple_manifest, List.append_assoc]

/-- Topic whose free-form content smuggles the knowledge-check markers into
the page, making the cross-check fail, for the witness. -/
def c3Topic : Topic :=
  ⟨"topic-1", "T", "knowledge-check-container fill-blank-", none, none, none, none, none⟩

/-- Request built around `c3Topic`, for the witness. -/
def c3Request : GenerateScormRequest :=
  ⟨"C", none, none, none, [c3Topic], none, 80, "linear", true, none, none, none, none⟩

/-- The report the validator produces on `c3Request`'s package: three rule
successes and two topic-page cross-check errors. -/
def c3Report : ValidationReport :=
  ⟨[("scripts/navigation.js", "Validation passed"),
    ("styles/main.css", "Validation passed"),
    ("index.html", "Validation passed")],
   [("pages/topic-1.html", "Fill-in-blank input missing proper class"),
    ("pages/topic-1.html", "Fill-in-blank submit button missing proper onclick handler")]⟩

/-- Witness for `package_failing_validation_rejected` at the concrete
request. -/
theorem package_failing_validation_rejected_witness :
    validate_scorm_package (.valid (packageEntries c3Request [] "u1")) = .ok c3Report
    ∧ c3Report.has_errors = true
    ∧ (generate_scorm_package c3Request [] "u1"
          = .error ("SCORM package validation failed:\n" ++ c3Report.summary)
        ∧ ∀ fe ∈ c3Report.errors,
            strContains ("SCORM package validation failed:\n" ++ c3Report.summary)
              ("  - " ++ fe.1 ++ ": " ++ fe.2 ++ "\n") = true) :=
  ⟨rfl, by decide,
    package_failing_validation_rejected c3Request [] "u1" c3Report rfl (by decide)⟩
